import Mathlib

/-!
Verification of the TwilioPVToolkit call module (`call.js`) and TwiML
validation module (`src/utils/twiml.js`).

The call module turns Twilio's callback-driven telephony protocol into
sequential scripts.  Each live call is a `Call` object holding

  * a property bag populated through a fixed field-mapping table,
  * an accumulated TwiML (markup) document under construction,
  * a `scriptContinues` flag,
  * one script-continuation slot (`#webhookFulfill`/`#webhookReject`) and
    one transport-continuation slot (`#twimlFulfill`/`#twimlReject`),

and a process-wide registry `currentCalls` maps call SIDs to sessions.
We embed the module as pure state-transition functions.  JavaScript
promise-resolving functions are no-ops once the promise is settled
(ECMAScript [[AlreadyResolved]]); slot transitions return an explicit
`Signal` recording whether a settlement attempt was delivered, silently
ignored, or hit an unset (`undefined`) resolver.
-/

namespace PVToolkit

/-- Flat field-value map, as delivered in a webhook/status callback body or a
provider call record; iteration order is list order. -/
abbrev Params := List (String × String)

/-- Association-list lookup (JS property read). -/
def getParam (body : Params) (k : String) : Option String :=
  match body with
  | [] => none
  | (k', v) :: rest => if k' = k then some v else getParam rest k

/-- JS truthiness test for the `if (sid && ...)` guards: `undefined` and the
empty string are falsy. -/
def truthy (o : Option String) : Option String :=
  match o with
  | none => none
  | some s => if s = "" then none else some s

/-- Set a property in a flat object: overwrite if present, else append. -/
def setProp (props : Params) (k v : String) : Params :=
  match props with
  | [] => [(k, v)]
  | (k', v') :: rest => if k' = k then (k, v) :: rest else (k', v') :: setProp rest k v

/-- Delete a property (JS `delete this.x`). -/
def delProp (props : Params) (k : String) : Params :=
  match props with
  | [] => []
  | (k', v') :: rest => if k' = k then delProp rest k else (k', v') :: delProp rest k

/-- `Call.propertyMappings`: webhook and status-callback parameters of
interest, with their normalized property names.  Transcribed from the source. -/
def propertyMappings : List (String × String) :=
  [("sid", "sid"),
   ("CallSid", "sid"),
   ("parentCallSid", "parentCallSid"),
   ("to", "to"),
   ("To", "to"),
   ("from", "from"),
   ("From", "from"),
   ("callerName", "callerName"),
   ("CallerName", "callerName"),
   ("status", "status"),
   ("CallStatus", "status"),
   ("duration", "duration"),
   ("Duration", "duration"),
   ("direction", "direction"),
   ("forwardedFrom", "forwardedFrom"),
   ("queueTime", "queueTime"),
   ("StirStatus", "stirStatus"),
   ("StirVerstat", "stirVerstat"),
   ("StirPassportToken", "stirPassportToken"),
   ("CallToken", "callToken"),
   ("SipResponseCode", "sipResponseCode"),
   ("ErrorCode", "errorCode"),
   ("ErrorMessage", "errorMessage"),
   ("Digits", "digits"),
   ("FinishedOnKey", "finishedOnKey"),
   ("SpeechResult", "speechResult"),
   ("Confidence", "confidence"),
   ("answeredBy", "answeredBy"),
   ("AnsweredBy", "answeredBy"),
   ("MachineDetectionDuration", "machineDetectionDuration"),
   ("DialCallStatus", "dialCallStatus"),
   ("DialCallSid", "dialCallSid"),
   ("DialCallDuration", "dialCallDuration")]

/-- The normalized property names a mapped field can land on. -/
def mappingTargets : List String := propertyMappings.map Prod.snd

/-- `#updateProperties` / `#updateChildProperties` field merge: each incoming
field whose name is in the mapping table is stored under its normalized name;
unmapped fields are dropped. -/
def mergeMapped (props : Params) (body : Params) : Params :=
  match body with
  | [] => props
  | (k, v) :: rest =>
    match getParam propertyMappings k with
    | some m => mergeMapped (setProp props m v) rest
    | none => mergeMapped props rest

/-- A Child Call Record: the mapped fields of one dialed-leg status event,
built from an empty bag (`#updateChildProperties`). -/
def mapChildRecord (body : Params) : Params := mergeMapped [] body

/-- A TwiML instruction, at the granularity the call module produces them.
`gather` and `dial` record the action URL the module injects; `redirect` is
only ever produced by `sendResponse` itself. -/
inductive Instr
  | say (text : String)
  | play (url : String)
  | pause (len : Nat)
  | gather (action : String)
  | dial (action : String)
  | hangup
  | reject
  | redirect (url : String)
deriving DecidableEq, Repr

/-- Render one instruction to its TwiML element. -/
def Instr.render : Instr → String
  | .say t => "<Say>" ++ t ++ "</Say>"
  | .play u => "<Play>" ++ u ++ "</Play>"
  | .pause n => "<Pause length=" ++ toString n ++ "/>"
  | .gather a => "<Gather action=" ++ a ++ "/>"
  | .dial a => "<Dial action=" ++ a ++ "/>"
  | .hangup => "<Hangup/>"
  | .reject => "<Reject/>"
  | .redirect u => "<Redirect>" ++ u ++ "</Redirect>"

/-- `VoiceResponse.toString()`: an empty document renders as `<Response/>`. -/
def renderTwiml (doc : List Instr) : String :=
  match doc with
  | [] => "<Response/>"
  | _ => "<Response>" ++ String.join (doc.map Instr.render) ++ "</Response>"

/-- State of one continuation slot.  `unset` models an `undefined` resolver
(before any promise installed it); JS resolve functions on an already-settled
promise are silent no-ops, so `settled` absorbs further attempts. -/
inductive SlotState
  | unset
  | pending
  | settled
deriving DecidableEq, Repr

/-- One call session (`Call` instance). -/
structure CallSession where
  /-- Mapped property bag (includes `sid` and `status`). -/
  props : Params := []
  /-- Ordered child-call records, one per dialed-leg status event. -/
  childCalls : List Params := []
  /-- Provenance tag of the most recent update. -/
  eventSource : Option String := none
  /-- True while more TwiML is to be returned. -/
  scriptContinues : Bool := true
  /-- Script continuation slot (`#webhookFulfill`/`#webhookReject`). -/
  scriptSlot : SlotState := .unset
  /-- Transport continuation slot (`#twimlFulfill`/`#twimlReject`). -/
  twimlSlot : SlotState := .unset
  /-- Wrapped `VoiceResponse`: the markup document under construction. -/
  voiceResponse : List Instr := []
deriving DecidableEq, Repr

/-- The session's call SID (`this.sid`). -/
def CallSession.sid (s : CallSession) : Option String := getParam s.props "sid"

/-- The session's call status (`this.status`). -/
def CallSession.callStatus (s : CallSession) : Option String := getParam s.props "status"

/-- A JavaScript error value, by kind. -/
inductive JsError
  | typeError (msg : String)
  | error (msg : String)
deriving DecidableEq, Repr

/-- Outcome of a settlement attempt on a continuation slot.  `fulfilled` and
`rejectedCallEnded` carry the session handed to the waiting script
(the `CallEndedException` constructor stores the related `Call`);
`rejectedProvider` carries the provider error `Call.makeCall` forwards;
`ignored` is a settle attempt on an already-settled promise (a JS no-op). -/
inductive Signal
  | fulfilled (call : CallSession)
  | rejectedCallEnded (call : CallSession)
  | rejectedProvider (err : String)
  | ignored
deriving DecidableEq, Repr

/-- Attempt to fulfill the promise behind a slot with the session
(`this.#webhookFulfill(this)`).  On an `unset` slot the resolver is still
`undefined`, so the call throws a `TypeError`, aborting the caller at this
statement. -/
def settleFulfill (slot : SlotState) (c : CallSession) :
    Except JsError (SlotState × Signal) :=
  match slot with
  | .pending => .ok (.settled, .fulfilled c)
  | .settled => .ok (.settled, .ignored)
  | .unset => .error (.typeError "this.#webhookFulfill is not a function")

/-- Attempt to reject the promise behind a slot with `CallEndedException(c)`
(`this.#webhookReject(new CallEndedException(this))`).  On an `unset` slot the
resolver is `undefined` and the call throws a `TypeError`. -/
def settleRejectCallEnded (slot : SlotState) (c : CallSession) :
    Except JsError (SlotState × Signal) :=
  match slot with
  | .pending => .ok (.settled, .rejectedCallEnded c)
  | .settled => .ok (.settled, .ignored)
  | .unset => .error (.typeError "this.#webhookReject is not a function")

/-- Outcome of handing TwiML to the transport continuation. -/
inductive TwimlSignal
  | delivered
  | ignored
deriving DecidableEq, Repr

/-! ## Script-facing builder and submission operations -/

/-- `Call.say(...)`: appends a `<Say>` to the wrapped `VoiceResponse`. -/
def CallSession.saySt (s : CallSession) (text : String) : CallSession :=
  { s with voiceResponse := s.voiceResponse ++ [.say text] }

/-- `Call.play(...)`: appends a `<Play>`. -/
def CallSession.playSt (s : CallSession) (url : String) : CallSession :=
  { s with voiceResponse := s.voiceResponse ++ [.play url] }

/-- `Call.pause(...)`: appends a `<Pause>`. -/
def CallSession.pauseSt (s : CallSession) (len : Nat) : CallSession :=
  { s with voiceResponse := s.voiceResponse ++ [.pause len] }

/-- `Call.gather(...)`: deletes any previously gathered digits/speech
properties and appends a `<Gather>` whose action URL is the module's own
webhook endpoint. -/
def CallSession.gatherSt (serverUrl : String) (s : CallSession) : CallSession :=
  { s with
    props := delProp (delProp (delProp (delProp s.props "digits") "finishedOnKey")
      "speechResult") "confidence",
    voiceResponse := s.voiceResponse ++ [.gather (serverUrl ++ "/webhook?source=gather")] }

/-- `Call.dial(...)`: appends a `<Dial>` whose action URL is the module's own
dial endpoint. -/
def CallSession.dialSt (serverUrl : String) (s : CallSession) : CallSession :=
  { s with voiceResponse := s.voiceResponse ++ [.dial (serverUrl ++ "/dial")] }

/-- `Call.hangup()`: clears `scriptContinues` and appends a `<Hangup>`. -/
def CallSession.hangupSt (s : CallSession) : CallSession :=
  { s with scriptContinues := false, voiceResponse := s.voiceResponse ++ [.hangup] }

/-- `Call.reject(...)`: clears `scriptContinues` and appends a `<Reject>`. -/
def CallSession.rejectSt (s : CallSession) : CallSession :=
  { s with scriptContinues := false, voiceResponse := s.voiceResponse ++ [.reject] }

/-- `Call.cancel()`: clears `scriptContinues`; the upstream REST update
(`status: completed`) is out of scope and settles nothing locally. -/
def CallSession.cancelSt (s : CallSession) : CallSession :=
  { s with scriptContinues := false }

/-- Result of `sendResponse`/`sendFinalResponse`: the new session state, the
rendered TwiML (document and text, both computed before the resolver call),
the settlement signal of the transport continuation, and the exception thrown
when that resolver was still `undefined`. -/
structure SubmitResult where
  call : CallSession
  twiml : String
  twimlDoc : List Instr
  twimlSignal : Option TwimlSignal
  threw : Option JsError := none
deriving DecidableEq, Repr

/-- Settlement of the transport continuation with the rendered TwiML text
(`#twimlFulfill(twiml)`): delivered only if the promise is still pending;
a no-op if already settled; a thrown `TypeError` if the resolver is still
`undefined`. -/
def settleTwimlSlot (slot : SlotState) : Except JsError (SlotState × TwimlSignal) :=
  match slot with
  | .pending => .ok (.settled, .delivered)
  | .settled => .ok (.settled, .ignored)
  | .unset => .error (.typeError "this.#twimlFulfill is not a function")

/-- `Call.sendResponse()`: if `scriptContinues` is still true a
`<Redirect>` to the module's webhook endpoint is appended first, so Twilio
returns control to the script; the accumulated TwiML is rendered and handed
to the transport continuation; a fresh pending script continuation is
installed; and (when the script continues) a fresh empty `VoiceResponse` is
created for the next step.  If `#twimlFulfill` is still `undefined`, the
method throws there: the appended redirect persists (the `VoiceResponse` was
already mutated) but no new script continuation is installed and the document
is not reset. -/
def CallSession.sendResponse (serverUrl : String) (s : CallSession) : SubmitResult :=
  let doc :=
    if s.scriptContinues then
      s.voiceResponse ++ [.redirect (serverUrl ++ "/webhook?source=redirect")]
    else s.voiceResponse
  match settleTwimlSlot s.twimlSlot with
  | .ok (tSlot, tSig) =>
    { call :=
        { s with
          scriptSlot := .pending,
          twimlSlot := tSlot,
          voiceResponse := if s.scriptContinues then [] else doc },
      twiml := renderTwiml doc,
      twimlDoc := doc,
      twimlSignal := some tSig }
  | .error e =>
    { call := { s with voiceResponse := doc },
      twiml := renderTwiml doc,
      twimlDoc := doc,
      twimlSignal := none,
      threw := some e }

/-- `Call.sendFinalResponse()`: clears `scriptContinues` first, renders the
accumulated TwiML exactly as it stands (no `<Redirect>` is appended), hands it
to the transport continuation and installs a fresh pending script
continuation.  If `#twimlFulfill` is still `undefined`, the method throws
there, after `scriptContinues` was already cleared. -/
def CallSession.sendFinalResponse (s : CallSession) : SubmitResult :=
  match settleTwimlSlot s.twimlSlot with
  | .ok (tSlot, tSig) =>
    { call :=
        { s with
          scriptContinues := false,
          scriptSlot := .pending,
          twimlSlot := tSlot },
      twiml := renderTwiml s.voiceResponse,
      twimlDoc := s.voiceResponse,
      twimlSignal := some tSig }
  | .error e =>
    { call := { s with scriptContinues := false },
      twiml := renderTwiml s.voiceResponse,
      twimlDoc := s.voiceResponse,
      twimlSignal := none,
      threw := some e }

/-- `Call.nextEvent()`: installs a fresh pending script continuation without
touching the transport continuation or the markup document. -/
def CallSession.nextEvent (s : CallSession) : CallSession :=
  { s with scriptSlot := .pending }

/-! ## Callback-driven handlers -/

/-- How an HTTP handler answers the provider.  `unhandledError` is a
synchronous throw escaping the route handler: the remaining statements of the
handler never run, and Express's default error handler answers 500. -/
inductive HttpResp
  | status (code : Nat)
  | xml (text : String)
  | awaitTwiml
  | unhandledError (e : JsError)
deriving DecidableEq, Repr

/-- Result of one of the `_respondTo...` handlers. -/
structure HandlerResult where
  call : CallSession
  /-- What happened to the script continuation, if the handler touched it. -/
  signal : Option Signal := none
  /-- Whether the handler deleted the session from `currentCalls`. -/
  removed : Bool := false
  response : HttpResp
deriving DecidableEq, Repr

/-- `Call._respondToWebhook`: merges the body, tags the event source, fulfills
the script continuation with the session, and installs a pending transport
continuation (`#getTwiml`) whose settlement will produce the HTTP body.  If
`#webhookFulfill` is still `undefined` the fulfill call throws, so `#getTwiml`
never runs: the merge persists, but no transport continuation is installed and
the throw escapes the route. -/
def CallSession.respondToWebhook (s : CallSession) (body : Params) : HandlerResult :=
  let s1 := { s with props := mergeMapped s.props body, eventSource := some "webhook" }
  match settleFulfill s1.scriptSlot s1 with
  | .ok (slot, sig) =>
    { call := { s1 with scriptSlot := slot, twimlSlot := .pending },
      signal := some sig,
      response := .awaitTwiml }
  | .error e =>
    { call := s1, response := .unhandledError e }

/-- The statuses `Call._respondToStatusCallback` treats as ending the call. -/
def terminalStatuses : List String :=
  ["completed", "busy", "no-answer", "canceled", "failed"]

/-- `Call._respondToStatusCallback`: merges the body, tags the event source,
then branches on the (updated) status.  `canceled`/`busy`/`no-answer`/`failed`
fulfill the script continuation and delete the session from the registry.
`completed` rejects it with `CallEndedException(this)` when `scriptContinues`
is still true, else fulfills it, and deletes the session either way.
`initiated`/`ringing`/`in-progress` fulfill and keep the session; any other
status is logged and ignored.  On the non-throwing paths it acknowledges with
HTTP 204; but if the resolver being called is still `undefined` (a session
registered by the inbound route before its script's first submission), the
call throws and the handler aborts at that statement — in particular
`delete currentCalls[this.sid]` and `response.status(204)` never run. -/
def CallSession.respondToStatusCallback (s : CallSession) (body : Params) : HandlerResult :=
  let s1 := { s with props := mergeMapped s.props body, eventSource := some "status" }
  match s1.callStatus with
  | some "canceled" | some "busy" | some "no-answer" | some "failed" =>
    match settleFulfill s1.scriptSlot s1 with
    | .ok (slot, sig) =>
      { call := { s1 with scriptSlot := slot },
        signal := some sig, removed := true, response := .status 204 }
    | .error e => { call := s1, response := .unhandledError e }
  | some "completed" =>
    if s1.scriptContinues then
      match settleRejectCallEnded s1.scriptSlot s1 with
      | .ok (slot, sig) =>
        { call := { s1 with scriptSlot := slot },
          signal := some sig, removed := true, response := .status 204 }
      | .error e => { call := s1, response := .unhandledError e }
    else
      match settleFulfill s1.scriptSlot s1 with
      | .ok (slot, sig) =>
        { call := { s1 with scriptSlot := slot },
          signal := some sig, removed := true, response := .status 204 }
      | .error e => { call := s1, response := .unhandledError e }
  | some "initiated" | some "ringing" | some "in-progress" =>
    match settleFulfill s1.scriptSlot s1 with
    | .ok (slot, sig) =>
      { call := { s1 with scriptSlot := slot },
        signal := some sig, response := .status 204 }
    | .error e => { call := s1, response := .unhandledError e }
  | _ =>
    { call := s1, response := .status 204 }

/-- `Call._respondToChildStatusCallback`: appends one Child Call Record built
from the mapped fields of the body, tags the event source, fulfills the script
continuation with the session; then, if the script continues, awaits further
TwiML through a new pending transport continuation, else immediately sends an
empty TwiML document.  An `undefined` resolver makes the fulfill call throw,
aborting the handler after the record was appended. -/
def CallSession.respondToChildStatusCallback (s : CallSession) (body : Params) :
    HandlerResult :=
  let s1 := { s with childCalls := s.childCalls ++ [mapChildRecord body],
                     eventSource := some "dial" }
  match settleFulfill s1.scriptSlot s1 with
  | .ok (slot, sig) =>
    let s2 := { s1 with scriptSlot := slot }
    if s2.scriptContinues then
      { call := { s2 with twimlSlot := .pending }, signal := some sig,
        response := .awaitTwiml }
    else
      { call := s2, signal := some sig, response := .xml (renderTwiml []) }
  | .error e =>
    { call := s1, response := .unhandledError e }

/-- `Call._respondToAmdStatusCallback`: merges the body, tags the event
source, and acknowledges with HTTP 204 without touching any continuation. -/
def CallSession.respondToAmdStatusCallback (s : CallSession) (body : Params) :
    HandlerResult :=
  { call := { s with props := mergeMapped s.props body, eventSource := some "asyncAmd" },
    response := .status 204 }

/-! ## Session registry and callback router -/

/-- The process-wide `currentCalls` associative array, indexed by call SID. -/
abbrev Registry := List (String × CallSession)

/-- `sid in currentCalls` / `currentCalls[sid]`. -/
def lookupReg (reg : Registry) (sid : String) : Option CallSession :=
  match reg with
  | [] => none
  | (k, c) :: rest => if k = sid then some c else lookupReg rest sid

/-- `currentCalls[sid] = call`. -/
def setReg (reg : Registry) (sid : String) (c : CallSession) : Registry :=
  match reg with
  | [] => [(sid, c)]
  | (k, c') :: rest => if k = sid then (sid, c) :: rest else (k, c') :: setReg rest sid c

/-- `delete currentCalls[sid]`. -/
def removeReg (reg : Registry) (sid : String) : Registry :=
  match reg with
  | [] => []
  | (k, c') :: rest => if k = sid then removeReg rest sid else (k, c') :: removeReg rest sid

/-- Outcome of routing one incoming provider callback. -/
structure RouteResult where
  /-- `log.warn('Call ... not found in current calls')` (or the inbound
  missing-SID warning) fired. -/
  warned : Bool := false
  signal : Option Signal := none
  response : HttpResp
  /-- The inbound route registered a brand-new session. -/
  createdSession : Bool := false
deriving DecidableEq, Repr

/-- Update the registry after a handler ran on the session stored under the
routing SID: the handler mutates the object in place, and the status handler
may then `delete currentCalls[this.sid]` (keyed by the post-merge SID). -/
def applyHandlerToReg (reg : Registry) (sid : String) (r : HandlerResult) : Registry :=
  let reg1 := setReg reg sid r.call
  if r.removed then removeReg reg1 (r.call.sid.getD "undefined") else reg1

/-- `app.post('/webhook')`: looks the truthy `CallSid` up in `currentCalls`
and lets the session respond; otherwise logs a warning and ends with 204. -/
def routeWebhook (reg : Registry) (body : Params) : Registry × RouteResult :=
  match truthy (getParam body "CallSid") with
  | some sid =>
    match lookupReg reg sid with
    | some c =>
      let r := c.respondToWebhook body
      (applyHandlerToReg reg sid r,
       { signal := r.signal, response := r.response })
    | none => (reg, { warned := true, response := .status 204 })
  | none => (reg, { warned := true, response := .status 204 })

/-- `app.post('/status')`: same lookup, dispatching to the status handler. -/
def routeStatus (reg : Registry) (body : Params) : Registry × RouteResult :=
  match truthy (getParam body "CallSid") with
  | some sid =>
    match lookupReg reg sid with
    | some c =>
      let r := c.respondToStatusCallback body
      (applyHandlerToReg reg sid r,
       { signal := r.signal, response := r.response })
    | none => (reg, { warned := true, response := .status 204 })
  | none => (reg, { warned := true, response := .status 204 })

/-- `app.post('/dial')`: same lookup, dispatching to the child-status handler. -/
def routeDial (reg : Registry) (body : Params) : Registry × RouteResult :=
  match truthy (getParam body "CallSid") with
  | some sid =>
    match lookupReg reg sid with
    | some c =>
      let r := c.respondToChildStatusCallback body
      (applyHandlerToReg reg sid r,
       { signal := r.signal, response := r.response })
    | none => (reg, { warned := true, response := .status 204 })
  | none => (reg, { warned := true, response := .status 204 })

/-- `app.post('/amd')`: same lookup, dispatching to the async-AMD handler. -/
def routeAmd (reg : Registry) (body : Params) : Registry × RouteResult :=
  match truthy (getParam body "CallSid") with
  | some sid =>
    match lookupReg reg sid with
    | some c =>
      let r := c.respondToAmdStatusCallback body
      (applyHandlerToReg reg sid r,
       { signal := r.signal, response := r.response })
    | none => (reg, { warned := true, response := .status 204 })
  | none => (reg, { warned := true, response := .status 204 })

/-- `app.post('/inbound')`: if a truthy `CallSid` is present, constructs a new
`Call` from the body (no resolvers installed yet), tags it `inbound`,
registers it, and awaits the TwiML the inbound script will produce; otherwise
logs a warning and answers 400. -/
def routeInbound (reg : Registry) (body : Params) : Registry × RouteResult :=
  match truthy (getParam body "CallSid") with
  | some sid =>
    let call : CallSession :=
      { props := mergeMapped [] body, eventSource := some "inbound",
        twimlSlot := .pending }
    (setReg reg sid call,
     { response := .awaitTwiml, createdSession := true })
  | none => (reg, { warned := true, response := .status 400 })

/-! ## Outbound call creation -/

/-- An option value passed to `Call.makeCall`: a plain scalar or the
`statusCallbackEvent` string list. -/
inductive OptVal
  | str (s : String)
  | list (xs : List String)
deriving DecidableEq, Repr

/-- Caller-supplied option set. -/
abbrev Options := List (String × OptVal)

/-- The option keys `Call.#validateOptions` rejects with
"... is not allowed in this context". -/
def notAllowedKeys : List String :=
  ["accountSid", "method", "fallbackUrl", "fallbackMethod", "statusCallback",
   "statusCallbackMethod", "url", "twiml", "applicationSid", "action",
   "partialResultsCallback", "partialResultsCallbackMethod", "actionOnEmptyResult"]

/-- Every option key on which `Call.#validateOptions` throws. -/
def reservedOptionKeys : List String :=
  notAllowedKeys ++ ["to", "from", "referUrl", "referMethod"]

/-- Set an option in the caller-supplied option object. -/
def setOpt (options : Options) (k : String) (v : OptVal) : Options :=
  match options with
  | [] => [(k, v)]
  | (k', v') :: rest => if k' = k then (k, v) :: rest else (k', v') :: setOpt rest k v

/-- One step of the `#validateOptions` switch on a single option key,
returning the (possibly mutated) option set. -/
def validateOption (serverUrl : String) (options : Options) (key : String) :
    Except JsError Options :=
  if key ∈ notAllowedKeys then
    .error (.error (key ++ " is not allowed in this context"))
  else if key = "to" ∨ key = "from" then
    .error (.error (key ++ " in options duplicates the " ++ key ++ " parameter"))
  else if key = "referUrl" ∨ key = "referMethod" then
    .error (.error "Refer is not currently supported")
  else if key = "statusCallbackEvent" then
    .ok (options.map fun kv =>
      if kv.1 = "statusCallbackEvent" then
        match kv.2 with
        | .list xs => (kv.1, if "completed" ∈ xs then OptVal.list xs else .list (xs ++ ["completed"]))
        | v => (kv.1, v)
      else kv)
  else if key = "asyncAmd" then
    .ok (setOpt (setOpt options "asyncAmdStatusCallback" (.str (serverUrl ++ "/amd")))
      "asyncAmdStatusCallbackMethod" (.str "POST"))
  else
    .ok options

/-- The `for (let option in options)` loop body of `Call.#validateOptions`,
over the listed keys in order. -/
def validateKeys (serverUrl : String) (acc : Options) : List String → Except JsError Options
  | [] => .ok acc
  | k :: ks =>
    match validateOption serverUrl acc k with
    | .error e => .error e
    | .ok acc' => validateKeys serverUrl acc' ks

/-- `Call.#validateOptions`: iterates the option keys in order, throwing on
reserved keys and normalizing `statusCallbackEvent`/`asyncAmd`. -/
def validateOptions (serverUrl : String) (options : Options) : Except JsError Options :=
  validateKeys serverUrl options (options.map Prod.fst)

/-- How the promise returned by `Call.makeCall` stands when the call-creation
exchange settles. -/
inductive MakeCallOutcome
  /-- The provider accepted the call; the promise stays pending (its resolvers
  now live in the registered session) until a webhook or status event. -/
  | pendingCall (registeredSid : String)
  /-- The provider request failed; the promise rejects with that very error. -/
  | rejectedProvider (err : String)
  /-- `#validateOptions` threw synchronously, before any request was issued. -/
  | threwValidation (e : JsError)
deriving DecidableEq, Repr

/-- Result of a `Call.makeCall` invocation. -/
structure MakeCallResult where
  outcome : MakeCallOutcome
  reg : Registry
  /-- Whether `client.calls.create` was invoked at all. -/
  requestIssued : Bool
deriving DecidableEq, Repr

/-- `Call.makeCall(to, from, options)`: validates the options synchronously,
then issues the provider request (`providerResult` stands for its settled
outcome).  On success a new `Call` is built from the returned call record,
tagged `api`, and registered under its SID with the promise's resolvers as its
script continuation; on failure the promise rejects with the provider's
error. -/
def makeCall (serverUrl : String) (reg : Registry) (options : Options)
    (providerResult : Except String Params) : MakeCallResult :=
  match validateOptions serverUrl options with
  | .error e => { outcome := .threwValidation e, reg := reg, requestIssued := false }
  | .ok _ =>
    match providerResult with
    | .error e => { outcome := .rejectedProvider e, reg := reg, requestIssued := true }
    | .ok callProperties =>
      let call : CallSession :=
        { props := mergeMapped [] callProperties, eventSource := some "api",
          scriptSlot := .pending }
      let sid := call.sid.getD "undefined"
      { outcome := .pendingCall sid, reg := setReg reg sid call, requestIssued := true }

/-! ## Whole-session operations, for lifecycle invariants -/

/-- Every public operation and provider event that can change one session's
state. -/
inductive Op
  | say (t : String)
  | play (u : String)
  | pause (n : Nat)
  | gather (serverUrl : String)
  | dial (serverUrl : String)
  | hangup
  | reject
  | cancel
  | sendResponse (serverUrl : String)
  | sendFinalResponse
  | nextEvent
  | webhookEvent (body : Params)
  | statusEvent (body : Params)
  | childStatusEvent (body : Params)
  | amdEvent (body : Params)
deriving Repr

/-- Apply one operation or event to a session's state. -/
def applyOp (s : CallSession) : Op → CallSession
  | .say t => s.saySt t
  | .play u => s.playSt u
  | .pause n => s.pauseSt n
  | .gather serverUrl => CallSession.gatherSt serverUrl s
  | .dial serverUrl => CallSession.dialSt serverUrl s
  | .hangup => s.hangupSt
  | .reject => s.rejectSt
  | .cancel => s.cancelSt
  | .sendResponse serverUrl => (CallSession.sendResponse serverUrl s).call
  | .sendFinalResponse => s.sendFinalResponse.call
  | .nextEvent => s.nextEvent
  | .webhookEvent body => (s.respondToWebhook body).call
  | .statusEvent body => (s.respondToStatusCallback body).call
  | .childStatusEvent body => (s.respondToChildStatusCallback body).call
  | .amdEvent body => (s.respondToAmdStatusCallback body).call

/-- The `Call` constructor as used on the `makeCall` path: properties from the
provider record, promise resolvers installed. -/
def newApiCall (callProperties : Params) : CallSession :=
  { props := mergeMapped [] callProperties, eventSource := some "api",
    scriptSlot := .pending }

/-! ## TwiML verb and attribute validation (`src/utils/twiml.js`) -/

/-- Every top-level TwiML verb named by the module: the seven supported
builder passthroughs plus the verbs in the `forbiddenVerbs` lists. -/
inductive Verb
  | say | play | pause | gather | dial | hangup | reject
  | connect | echo | enqueue | leave | pay | record | redirect
  | refer | siprec | sms | stream
deriving DecidableEq, Repr, Fintype

/-- The property name a verb is accessed under. -/
def Verb.name : Verb → String
  | .say => "say" | .play => "play" | .pause => "pause" | .gather => "gather"
  | .dial => "dial" | .hangup => "hangup" | .reject => "reject"
  | .connect => "connect" | .echo => "echo" | .enqueue => "enqueue"
  | .leave => "leave" | .pay => "pay" | .record => "record"
  | .redirect => "redirect" | .refer => "refer" | .siprec => "siprec"
  | .sms => "sms" | .stream => "stream"

/-- `forbiddenVerbs`: verbs whose support has not yet been added. -/
def forbiddenVerbs : List Verb :=
  [.connect, .echo, .enqueue, .leave, .pay, .record, .redirect, .refer,
   .siprec, .sms, .stream]

/-- `forbiddenVerbsInternal`: as above, but `<Redirect>` is allowed for use
within the call module. -/
def forbiddenVerbsInternal : List Verb :=
  [.connect, .echo, .enqueue, .leave, .pay, .record, .refer,
   .siprec, .sms, .stream]

/-- The markup verb surface the toolkit supports on a Response Builder. -/
def supportedVerbs : List Verb :=
  [.say, .play, .pause, .gather, .dial, .hangup, .reject]

/-- `forbiddenAttributes`: attributes reserved for the module's own routing. -/
def forbiddenAttributes : List String :=
  ["fallbackUrl", "fallbackMethod", "applicationSid", "action",
   "partialResultsCallback", "partialResultsCallbackMethod",
   "actionOnEmptyResult", "method", "recordingStatusCallback",
   "recordingStatusCallbackMethod", "referUrl", "referMethod",
   "statusCallback", "statusCallbackMethod", "eventCallbackUrl", "url",
   "amdStatusCallback", "amdStatusCallbackMethod"]

/-- The `get` trap of the validation proxy, applied to a verb access: if the
verb is in the profile's disallowed list, a `TypeError` is thrown at the
moment of access; otherwise the access goes through to the wrapped
`VoiceResponse`. -/
def proxyGetVerb (disallowed : List Verb) (v : Verb) : Except JsError Unit :=
  if v ∈ disallowed then
    .error (.typeError (v.name ++ " is not currently supported"))
  else
    .ok ()

/-- The `apply` trap of the validation proxy, applied to the attribute object
of a verb invocation: the first attribute in the node's disallowed list throws
a `TypeError`. -/
def proxyApplyAttrs (disallowed : List String) (errorMessage : String)
    (attrs : List String) : Except JsError Unit :=
  match attrs with
  | [] => .ok ()
  | a :: rest =>
    if a ∈ disallowed then .error (.typeError (a ++ errorMessage))
    else proxyApplyAttrs disallowed errorMessage rest

/-- Whether a thrown value is of kind `TypeError`. -/
def isTypeError : Except JsError Unit → Bool
  | .error (.typeError _) => true
  | _ => false


end PVToolkit

namespace PVToolkit

/-! ## Derived predicates used in the statements -/

/-- Whether the last instruction of a markup document is a `<Redirect>`
(the return-to-engine instruction). -/
def endsWithRedirect (doc : List Instr) : Bool :=
  match doc.getLast? with
  | some (.redirect _) => true
  | _ => false

/-- Whether an HTTP acknowledgment is a client error (4xx). -/
def isClientError : HttpResp → Bool
  | .status code => 400 ≤ code && code < 500
  | _ => false

/-! ## Helper lemmas -/

lemma getLast?_concat_instr (l : List Instr) (a : Instr) :
    (l ++ [a]).getLast? = some a := by
  simp [List.getLast?_concat]

lemma lookupReg_removeReg (reg : Registry) (sid : String) :
    lookupReg (removeReg reg sid) sid = none := by
  induction reg with
  | nil => rfl
  | cons kc rest ih =>
    obtain ⟨k, c⟩ := kc
    by_cases h : k = sid <;> simp [removeReg, lookupReg, h, ih]

lemma routeWebhook_unknown (reg : Registry) (body : Params) (sid : String)
    (h1 : truthy (getParam body "CallSid") = some sid)
    (h2 : lookupReg reg sid = none) :
    routeWebhook reg body = (reg, { warned := true, response := .status 204 }) := by
  simp [routeWebhook, h1, h2]

lemma routeStatus_unknown (reg : Registry) (body : Params) (sid : String)
    (h1 : truthy (getParam body "CallSid") = some sid)
    (h2 : lookupReg reg sid = none) :
    routeStatus reg body = (reg, { warned := true, response := .status 204 }) := by
  simp [routeStatus, h1, h2]

lemma routeDial_unknown (reg : Registry) (body : Params) (sid : String)
    (h1 : truthy (getParam body "CallSid") = some sid)
    (h2 : lookupReg reg sid = none) :
    routeDial reg body = (reg, { warned := true, response := .status 204 }) := by
  simp [routeDial, h1, h2]

lemma routeAmd_unknown (reg : Registry) (body : Params) (sid : String)
    (h1 : truthy (getParam body "CallSid") = some sid)
    (h2 : lookupReg reg sid = none) :
    routeAmd reg body = (reg, { warned := true, response := .status 204 }) := by
  simp [routeAmd, h1, h2]

lemma getParam_mem {l : Params} {k v : String} (h : getParam l k = some v) :
    (k, v) ∈ l := by
  induction l with
  | nil => simp [getParam] at h
  | cons kv rest ih =>
    obtain ⟨k', v'⟩ := kv
    simp only [getParam] at h
    split at h
    · obtain ⟨rfl⟩ := h
      rename_i heq
      subst heq
      exact List.mem_cons_self _ _
    · exact List.mem_cons_of_mem _ (ih h)

lemma setProp_keys {props : Params} {k v : String} :
    ∀ kv ∈ setProp props k v, kv.1 = k ∨ kv.1 ∈ props.map Prod.fst := by
  induction props with
  | nil => intro kv h; simp [setProp] at h; simp [h]
  | cons kv' rest ih =>
    obtain ⟨k', v'⟩ := kv'
    intro kv h
    simp only [setProp] at h
    split at h
    · rcases List.mem_cons.mp h with rfl | hmem
      · exact Or.inl rfl
      · exact Or.inr (by simp; exact Or.inr ⟨kv.2, (by simpa using hmem)⟩)
    · rcases List.mem_cons.mp h with rfl | hmem
      · simp
      · rcases ih kv hmem with h' | h'
        · exact Or.inl h'
        · exact Or.inr (by simp at h' ⊢; tauto)

/-- Every property a merge can write is a normalized name from the mapping
table (or was already present): unmapped incoming fields are dropped. -/
lemma mergeMapped_keys (body : Params) :
    ∀ (props : Params), ∀ kv ∈ mergeMapped props body,
      kv.1 ∈ props.map Prod.fst ∨ kv.1 ∈ mappingTargets := by
  induction body with
  | nil => intro props kv h; exact Or.inl (List.mem_map_of_mem _ (by simpa [mergeMapped] using h))
  | cons hd rest ih =>
    intro props kv h
    obtain ⟨k, v⟩ := hd
    simp only [mergeMapped] at h
    cases hm : getParam propertyMappings k with
    | some m =>
      rw [hm] at h
      rcases ih (setProp props m v) kv h with h' | h'
      · rcases List.mem_map.mp h' with ⟨kv', hkv', hfst⟩
        rcases setProp_keys kv' hkv' with h'' | h''
        · right
          have hkm : kv.1 = m := by rw [← hfst, h'']
          rw [hkm]
          exact List.mem_map_of_mem Prod.snd (getParam_mem hm)
        · left
          rw [← hfst]
          exact h''
      · exact Or.inr h'
    | none =>
      rw [hm] at h
      exact ih props kv h

lemma validateOption_reserved (serverUrl : String) (acc : Options) (k : String)
    (hk : k ∈ reservedOptionKeys) :
    ∃ e, validateOption serverUrl acc k = .error e := by
  rcases List.mem_append.mp hk with h | h
  · exact ⟨.error (k ++ " is not allowed in this context"), by simp [validateOption, h]⟩
  · simp only [List.mem_cons, List.not_mem_nil, or_false] at h
    rcases h with rfl | rfl | rfl | rfl <;> exact ⟨_, rfl⟩

lemma validateKeys_reserved (serverUrl : String) (k : String)
    (hres : k ∈ reservedOptionKeys) :
    ∀ (ks : List String), k ∈ ks → ∀ (acc : Options),
      ∃ e, validateKeys serverUrl acc ks = .error e := by
  intro ks
  induction ks with
  | nil => intro h; simp at h
  | cons hd rest ih =>
    intro hmem acc
    rcases List.mem_cons.mp hmem with rfl | hmem'
    · obtain ⟨e, he⟩ := validateOption_reserved serverUrl acc k hres
      exact ⟨e, by simp [validateKeys, he]⟩
    · cases hv : validateOption serverUrl acc hd with
      | error e => exact ⟨e, by simp [validateKeys, hv]⟩
      | ok acc' =>
        obtain ⟨e, he⟩ := ih hmem' acc'
        exact ⟨e, by simp [validateKeys, hv, he]⟩

/-- No operation or provider event ever turns `scriptContinues` back on. -/
lemma scriptContinues_applyOp (s : CallSession) (op : Op) :
    s.scriptContinues = false → (applyOp s op).scriptContinues = false := by
  intro h
  cases op <;>
    simp only [applyOp, CallSession.saySt, CallSession.playSt, CallSession.pauseSt,
      CallSession.gatherSt, CallSession.dialSt, CallSession.hangupSt,
      CallSession.rejectSt, CallSession.cancelSt, CallSession.sendResponse,
      CallSession.sendFinalResponse, CallSession.nextEvent,
      CallSession.respondToWebhook, CallSession.respondToStatusCallback,
      CallSession.respondToChildStatusCallback,
      CallSession.respondToAmdStatusCallback] <;>
    (repeat' split) <;> simp_all

/-! ## Concrete fixtures used by witnesses and counterexamples -/

/-- An outbound session awaiting its first event. -/
def c1Call : CallSession := { props := [("sid", "CA1")], scriptSlot := .pending }

/-- An end-of-call status callback body. -/
def c1Body : Params := [("CallSid", "CA1"), ("CallStatus", "completed")]

/-- A session suspended in a webhook, with one instruction accumulated. -/
def c2Call : CallSession :=
  { scriptSlot := .pending, twimlSlot := .pending, voiceResponse := [.say "Hi"] }

/-- An outbound session awaiting its first event. -/
def c3Call : CallSession := { props := [("sid", "CA1")], scriptSlot := .pending }

/-- A registry holding one live session. -/
def c3Reg : Registry := [("CA1", c3Call)]

/-- A terminal (`busy`) status callback body. -/
def c3Body : Params := [("CallSid", "CA1"), ("CallStatus", "busy")]

/-- A later callback body carrying the same identifier. -/
def c3Body2 : Params := [("CallSid", "CA1")]

/-- A session whose script continuation has already been settled. -/
def c4Call : CallSession := { props := [("sid", "CA1")], scriptSlot := .settled }

/-- A non-terminal status callback body. -/
def c4Body : Params := [("CallSid", "CA1"), ("CallStatus", "initiated")]

/-- A parent session suspended awaiting its dialed leg. -/
def c5Call : CallSession := { props := [("sid", "CA1")], scriptSlot := .pending }

/-- A child-leg (dial action) callback body. -/
def c5Body : Params :=
  [("CallSid", "CA1"), ("DialCallSid", "CA2"), ("DialCallStatus", "completed")]

/-- An option set that tries to override the status-callback routing URL. -/
def c6Options : Options :=
  [("record", .str "true"), ("statusCallback", .str "https://evil.example/cb")]

/-- A harmless option set. -/
def c10Options : Options := [("record", .str "true")]

/-- A fresh session with everything defaulted. -/
def c8Call : CallSession := {}

/-- A session whose script has already terminated. -/
def c8Hungup : CallSession := { scriptContinues := false }


/-! ## Claims -/

/-- C1: For every session with a pending script continuation, a status event
carrying status `completed` rejects that continuation with a
`CallEndedException` carrying a reference to the (updated) session when the
session's `scriptContinues` flag is still true, and fulfills it with the
session when `scriptContinues` is false. -/
theorem c1_completed_rejects_or_fulfills (s : CallSession) (body : Params)
    (hpending : s.scriptSlot = .pending)
    (hcompleted : getParam (mergeMapped s.props body) "status" = some "completed") :
    (s.scriptContinues = true →
      (s.respondToStatusCallback body).signal = some (.rejectedCallEnded
        { s with props := mergeMapped s.props body, eventSource := some "status" })) ∧
    (s.scriptContinues = false →
      (s.respondToStatusCallback body).signal = some (.fulfilled
        { s with props := mergeMapped s.props body, eventSource := some "status" })) := by
  unfold CallSession.respondToStatusCallback
  simp only [CallSession.callStatus, hcompleted]
  cases hsc : s.scriptContinues <;>
    simp [hsc, hpending, settleRejectCallEnded, settleFulfill]

/-- Witness for C1 at a concrete session and `completed` status body. -/
theorem c1_completed_witness :
    c1Call.scriptSlot = .pending ∧
    getParam (mergeMapped c1Call.props c1Body) "status" = some "completed" ∧
    (c1Call.respondToStatusCallback c1Body).signal = some (.rejectedCallEnded
      { c1Call with props := mergeMapped c1Call.props c1Body, eventSource := some "status" }) :=
  ⟨by decide, by decide,
    (c1_completed_rejects_or_fulfills c1Call c1Body (by decide) (by decide)).1 (by decide)⟩

/-- C2 counterexample: the claim says `sendResponse` (a non-final submission)
always yields markup ending in the return-to-engine redirect.  But the code
appends the redirect only while `scriptContinues` is true: a script that ran
`say` then `hangup` after its webhook and then submits non-finally gets markup
ending in `<Hangup/>`, with no redirect. -/
theorem c2_nonfinal_redirect_counterexample :
    ((((newApiCall [("sid", "CA1")]).respondToWebhook
        [("CallSid", "CA1")]).call.saySt "Goodbye").hangupSt.scriptContinues = false) ∧
    (CallSession.sendResponse "https://example.com"
        (((newApiCall [("sid", "CA1")]).respondToWebhook
          [("CallSid", "CA1")]).call.saySt "Goodbye").hangupSt).twimlDoc
      = [.say "Goodbye", .hangup] ∧
    endsWithRedirect (CallSession.sendResponse "https://example.com"
        (((newApiCall [("sid", "CA1")]).respondToWebhook
          [("CallSid", "CA1")]).call.saySt "Goodbye").hangupSt).twimlDoc = false ∧
    (CallSession.sendResponse "https://example.com"
        (((newApiCall [("sid", "CA1")]).respondToWebhook
          [("CallSid", "CA1")]).call.saySt "Goodbye").hangupSt).twiml
      = "<Response><Say>Goodbye</Say><Hangup/></Response>" := by
  decide

/-- C2 (amended): `sendResponse` appends the return-to-engine redirect as the
last instruction exactly when `scriptContinues` is still true at submission
time (in particular not after `hangup`/`reject`), and `sendFinalResponse`
never appends it: its markup is exactly the accumulated document. -/
theorem c2_redirect_iff_scriptContinues (serverUrl : String) (s : CallSession) :
    (s.scriptContinues = true →
      (CallSession.sendResponse serverUrl s).twimlDoc
          = s.voiceResponse ++ [.redirect (serverUrl ++ "/webhook?source=redirect")] ∧
      endsWithRedirect (CallSession.sendResponse serverUrl s).twimlDoc = true) ∧
    (s.scriptContinues = false →
      (CallSession.sendResponse serverUrl s).twimlDoc = s.voiceResponse) ∧
    s.sendFinalResponse.twimlDoc = s.voiceResponse := by
  refine ⟨fun h => ?_, fun h => ?_, ?_⟩
  · constructor
    · simp only [CallSession.sendResponse, h]
      split <;> simp
    · simp only [CallSession.sendResponse, h]
      split <;> simp [endsWithRedirect, getLast?_concat_instr]
  · simp only [CallSession.sendResponse, h]
    split <;> simp
  · simp only [CallSession.sendFinalResponse]
    split <;> simp

/-- Witness for the amended C2 at a concrete still-continuing session. -/
theorem c2_redirect_witness :
    c2Call.scriptContinues = true ∧
    (CallSession.sendResponse "https://example.com" c2Call).twimlDoc
      = c2Call.voiceResponse
          ++ [.redirect ("https://example.com" ++ "/webhook?source=redirect")] :=
  ⟨by decide,
    ((c2_redirect_iff_scriptContinues "https://example.com" c2Call).1 (by decide)).1⟩

/-- C3 counterexample: the claim says any terminal status event removes the
session from the registry and later callbacks with its identifier are handled
as routing warnings rather than crashes.  But a session registered by the
inbound route is constructed with `new Call(request.body)` — no resolvers —
so a terminal `completed` status event arriving before the script's first
submission makes `this.#webhookReject(...)` throw a `TypeError` on an
`undefined` function: `delete currentCalls[this.sid]` and the 204 never run,
the session stays registered, and a repeated callback with the same
identifier crashes again instead of producing a routing warning. -/
theorem c3_terminal_counterexample :
    ("completed" ∈ terminalStatuses) ∧
    (routeStatus (routeInbound [] [("CallSid", "CA9"), ("From", "+15550100")]).1
        [("CallSid", "CA9"), ("CallStatus", "completed")]).2.response
      = .unhandledError (.typeError "this.#webhookReject is not a function") ∧
    (lookupReg (routeStatus (routeInbound [] [("CallSid", "CA9"), ("From", "+15550100")]).1
        [("CallSid", "CA9"), ("CallStatus", "completed")]).1 "CA9").isSome = true ∧
    (routeStatus
        (routeStatus (routeInbound [] [("CallSid", "CA9"), ("From", "+15550100")]).1
          [("CallSid", "CA9"), ("CallStatus", "completed")]).1
        [("CallSid", "CA9"), ("CallStatus", "completed")]).2.response
      = .unhandledError (.typeError "this.#webhookReject is not a function") ∧
    (routeStatus
        (routeStatus (routeInbound [] [("CallSid", "CA9"), ("From", "+15550100")]).1
          [("CallSid", "CA9"), ("CallStatus", "completed")]).1
        [("CallSid", "CA9"), ("CallStatus", "completed")]).2.warned = false := by
  decide

/-- C3 (amended): for every session whose script-continuation resolvers are
installed (slot pending or settled — every session created through
`makeCall`, and every session that has run `sendResponse`/`sendFinalResponse`/
`nextEvent`), processing a status event whose (merged) status is terminal
removes the session's identifier from the registry, and any subsequent
webhook, status, dial or AMD callback carrying the same identifier is handled
as a routing warning — logged, acknowledged with a harmless 204, and leaving
the registry unchanged (no crash, no new session).  An inbound session that
has not yet installed its resolvers instead makes the handler throw, leaving
the session registered (see the counterexample). -/
theorem c3_terminal_removes_and_warns (reg : Registry) (body body2 : Params)
    (s : CallSession) (sid : String) (t : String)
    (hslot : s.scriptSlot ≠ .unset)
    (hsid : truthy (getParam body "CallSid") = some sid)
    (hreg : lookupReg reg sid = some s)
    (hterm : getParam (mergeMapped s.props body) "status" = some t)
    (ht : t ∈ terminalStatuses)
    (hsid2 : getParam (mergeMapped s.props body) "sid" = some sid)
    (hsid3 : truthy (getParam body2 "CallSid") = some sid) :
    lookupReg (routeStatus reg body).1 sid = none ∧
    (routeWebhook (routeStatus reg body).1 body2
      = ((routeStatus reg body).1, { warned := true, response := .status 204 })) ∧
    (routeStatus (routeStatus reg body).1 body2
      = ((routeStatus reg body).1, { warned := true, response := .status 204 })) ∧
    (routeDial (routeStatus reg body).1 body2
      = ((routeStatus reg body).1, { warned := true, response := .status 204 })) ∧
    (routeAmd (routeStatus reg body).1 body2
      = ((routeStatus reg body).1, { warned := true, response := .status 204 })) := by
  have hslot' : s.scriptSlot = .pending ∨ s.scriptSlot = .settled := by
    cases hs : s.scriptSlot
    · exact absurd hs hslot
    · exact Or.inl rfl
    · exact Or.inr rfl
  have hnone : lookupReg (routeStatus reg body).1 sid = none := by
    simp only [routeStatus, hsid, hreg]
    unfold CallSession.respondToStatusCallback
    simp only [CallSession.callStatus, hterm]
    simp only [terminalStatuses, List.mem_cons, List.not_mem_nil, or_false] at ht
    rcases ht with rfl | rfl | rfl | rfl | rfl
    · cases hsc : s.scriptContinues <;> rcases hslot' with h | h <;>
        simp [hsc, h, applyHandlerToReg, CallSession.sid, hsid2, lookupReg_removeReg,
          settleFulfill, settleRejectCallEnded]
    all_goals rcases hslot' with h | h <;>
      simp [h, applyHandlerToReg, CallSession.sid, hsid2, lookupReg_removeReg,
        settleFulfill]
  exact ⟨hnone, routeWebhook_unknown _ _ _ hsid3 hnone,
    routeStatus_unknown _ _ _ hsid3 hnone, routeDial_unknown _ _ _ hsid3 hnone,
    routeAmd_unknown _ _ _ hsid3 hnone⟩

/-- Witness for the amended C3 at a one-session registry (resolvers
installed) and a `busy` status event. -/
theorem c3_terminal_witness :
    c3Call.scriptSlot = .pending ∧
    ("busy" ∈ terminalStatuses) ∧
    lookupReg (routeStatus c3Reg c3Body).1 "CA1" = none :=
  ⟨by decide, by decide,
    (c3_terminal_removes_and_warns c3Reg c3Body c3Body2 c3Call "CA1" "busy"
      (by decide) (by decide) (by decide) (by decide) (by decide) (by decide)
      (by decide)).1⟩

/-- C4 counterexample: the claim says settling an already-settled continuation
is rejected as a programming error.  In the code the resolver of an
already-settled promise is a silent no-op: after an `initiated` status event
fulfills the script continuation, a second identical event leaves the slot as
it was, produces no error, and is acknowledged with a normal 204. -/
theorem c4_double_settle_counterexample :
    (({ props := [("sid", "CA1")], scriptSlot := .pending } :
        CallSession).respondToStatusCallback
          [("CallSid", "CA1"), ("CallStatus", "initiated")]).signal
      = some (.fulfilled { props := [("sid", "CA1"), ("status", "initiated")],
                           eventSource := some "status", scriptSlot := .pending }) ∧
    (({ props := [("sid", "CA1")], scriptSlot := .pending } :
        CallSession).respondToStatusCallback
          [("CallSid", "CA1"), ("CallStatus", "initiated")]).call.scriptSlot = .settled ∧
    ((({ props := [("sid", "CA1")], scriptSlot := .pending } :
        CallSession).respondToStatusCallback
          [("CallSid", "CA1"), ("CallStatus", "initiated")]).call.respondToStatusCallback
          [("CallSid", "CA1"), ("CallStatus", "initiated")]).signal = some .ignored ∧
    ((({ props := [("sid", "CA1")], scriptSlot := .pending } :
        CallSession).respondToStatusCallback
          [("CallSid", "CA1"), ("CallStatus", "initiated")]).call.respondToStatusCallback
          [("CallSid", "CA1"), ("CallStatus", "initiated")]).call.scriptSlot = .settled ∧
    ((({ props := [("sid", "CA1")], scriptSlot := .pending } :
        CallSession).respondToStatusCallback
          [("CallSid", "CA1"), ("CallStatus", "initiated")]).call.respondToStatusCallback
          [("CallSid", "CA1"), ("CallStatus", "initiated")]).response = .status 204 := by
  decide

/-- C4 (amended): each session has a single script-continuation slot and a
single transport-continuation slot, so at most one of each is pending at any
instant; but an attempt to settle an already-settled continuation is silently
ignored (a no-op, per JS promise semantics) rather than rejected as a
programming error: the slot is left settled, the signal is `ignored`, and the
event is acknowledged normally. -/
theorem c4_double_settle_silently_ignored (s : CallSession) (body : Params)
    (hsettled : s.scriptSlot = .settled)
    (hst : getParam (mergeMapped s.props body) "status" = some "initiated") :
    (s.respondToStatusCallback body).signal = some .ignored ∧
    (s.respondToStatusCallback body).call.scriptSlot = .settled ∧
    (s.respondToStatusCallback body).response = .status 204 := by
  unfold CallSession.respondToStatusCallback
  simp only [CallSession.callStatus, hst]
  simp [settleFulfill, hsettled]

/-- Witness for the amended C4 at a concrete settled session. -/
theorem c4_double_settle_witness :
    c4Call.scriptSlot = .settled ∧
    (c4Call.respondToStatusCallback c4Body).signal = some .ignored :=
  ⟨by decide,
    (c4_double_settle_silently_ignored c4Call c4Body (by decide) (by decide)).1⟩

/-- C5: processing one child-leg (dial) status event appends exactly one Child
Call Record — containing only fields mapped through the mapping table — to
`childCalls`, fulfills the pending script continuation with the session, and
then either awaits further markup through a new pending transport continuation
(`scriptContinues` still true) or immediately sends an empty markup document
(`scriptContinues` false). -/
theorem c5_child_status_appends_record (s : CallSession) (body : Params)
    (hpend : s.scriptSlot = .pending) :
    (s.respondToChildStatusCallback body).call.childCalls
        = s.childCalls ++ [mapChildRecord body] ∧
    (∀ kv ∈ mapChildRecord body, kv.1 ∈ mappingTargets) ∧
    (s.respondToChildStatusCallback body).signal = some (.fulfilled
      { s with childCalls := s.childCalls ++ [mapChildRecord body],
               eventSource := some "dial" }) ∧
    (s.scriptContinues = true →
      (s.respondToChildStatusCallback body).call.twimlSlot = .pending ∧
      (s.respondToChildStatusCallback body).response = .awaitTwiml) ∧
    (s.scriptContinues = false →
      (s.respondToChildStatusCallback body).response = .xml "<Response/>") := by
  have hkeys : ∀ kv ∈ mapChildRecord body, kv.1 ∈ mappingTargets := by
    intro kv h
    rcases mergeMapped_keys body [] kv h with h' | h'
    · simp at h'
    · exact h'
  cases hsc : s.scriptContinues <;>
    (simp [CallSession.respondToChildStatusCallback, settleFulfill, hpend, hsc,
      renderTwiml, hkeys]
     exact fun a b h => hkeys (a, b) h)

/-- Witness for C5 at a concrete parent session and dial callback. -/
theorem c5_child_status_witness :
    c5Call.scriptSlot = .pending ∧
    (c5Call.respondToChildStatusCallback c5Body).call.childCalls
      = c5Call.childCalls ++ [mapChildRecord c5Body] :=
  ⟨by decide, (c5_child_status_appends_record c5Call c5Body (by decide)).1⟩

/-- C6: if the caller-supplied option set contains any reserved routing key
(`url`, `statusCallback`, `applicationSid`, `twiml`, `method`, `fallbackUrl`,
`action`, ...), `Call.makeCall` throws a validation error synchronously:
no provider request is issued and the session registry is unchanged. -/
theorem c6_reserved_option_rejected (serverUrl : String) (reg : Registry)
    (options : Options) (providerResult : Except String Params) (k : String)
    (hk : k ∈ options.map Prod.fst) (hres : k ∈ reservedOptionKeys) :
    (makeCall serverUrl reg options providerResult).requestIssued = false ∧
    (makeCall serverUrl reg options providerResult).reg = reg ∧
    ∃ e, (makeCall serverUrl reg options providerResult).outcome
      = .threwValidation e := by
  obtain ⟨e, he⟩ :=
    validateKeys_reserved serverUrl k hres (options.map Prod.fst) hk options
  have hv : validateOptions serverUrl options = .error e := he
  simp [makeCall, hv]

/-- Witness for C6 at an option set that sets `statusCallback`. -/
theorem c6_reserved_option_witness :
    ("statusCallback" ∈ c6Options.map Prod.fst) ∧
    ("statusCallback" ∈ reservedOptionKeys) ∧
    (makeCall "https://example.com" [] c6Options (.ok [])).requestIssued = false :=
  ⟨by decide, by decide,
    (c6_reserved_option_rejected "https://example.com" [] c6Options (.ok [])
      "statusCallback" (by decide) (by decide)).1⟩

/-- C7 counterexample: the claim says every callback class answers a payload
with no call identifier with a client-error acknowledgment.  The webhook
route answers such a payload with 204 (No Content), which is not a 4xx
client error — only the inbound route answers 400. -/
theorem c7_missing_sid_counterexample :
    (routeWebhook [] [("CallStatus", "completed")]).2.response = .status 204 ∧
    isClientError (routeWebhook [] [("CallStatus", "completed")]).2.response = false ∧
    (routeWebhook [] [("CallStatus", "completed")]).2.warned = true := by
  decide

/-- C7 (amended): when the payload carries no (truthy) call identifier, only
the inbound-call route responds with a client error (400); the webhook,
status, dial and AMD routes log a warning and respond 204, exactly as for an
unknown identifier, leaving the registry unchanged. -/
theorem c7_missing_sid_responses (reg : Registry) (body : Params)
    (h : truthy (getParam body "CallSid") = none) :
    routeInbound reg body = (reg, { warned := true, response := .status 400 }) ∧
    isClientError (routeInbound reg body).2.response = true ∧
    routeWebhook reg body = (reg, { warned := true, response := .status 204 }) ∧
    routeStatus reg body = (reg, { warned := true, response := .status 204 }) ∧
    routeDial reg body = (reg, { warned := true, response := .status 204 }) ∧
    routeAmd reg body = (reg, { warned := true, response := .status 204 }) := by
  refine ⟨?_, ?_, ?_, ?_, ?_, ?_⟩ <;>
    simp [routeInbound, routeWebhook, routeStatus, routeDial, routeAmd, h, isClientError]

/-- Witness for the amended C7 at an empty payload. -/
theorem c7_missing_sid_witness :
    truthy (getParam ([] : Params) "CallSid") = none ∧
    routeInbound [] [] = ([], { warned := true, response := .status 400 }) :=
  ⟨by decide, (c7_missing_sid_responses [] [] (by decide)).1⟩

/-- C8: `scriptContinues` starts true on a freshly created session, no
operation or provider event ever turns it from false back to true, and along
any sequence of operations it stays false once false. -/
theorem c8_scriptContinues_monotone (props : Params) (s : CallSession) (op : Op)
    (ops : List Op) :
    (newApiCall props).scriptContinues = true ∧
    ((applyOp s op).scriptContinues = true → s.scriptContinues = true) ∧
    (s.scriptContinues = false → (List.foldl applyOp s ops).scriptContinues = false) := by
  refine ⟨rfl, ?_, ?_⟩
  · intro h
    by_contra hfalse
    have := scriptContinues_applyOp s op (by simpa using hfalse)
    rw [h] at this
    cases this
  · intro h
    induction ops generalizing s with
    | nil => exact h
    | cons hd rest ih => exact ih _ (scriptContinues_applyOp s hd h)

/-- Witness for C8: a fresh session starts true, and a hung-up session stays
false over further operations. -/
theorem c8_scriptContinues_witness :
    (newApiCall [("sid", "CA1")]).scriptContinues = true ∧
    ((applyOp c8Call (.say "bye")).scriptContinues = true →
      c8Call.scriptContinues = true) ∧
    (List.foldl applyOp c8Hungup [.say "bye"]).scriptContinues = false :=
  ⟨(c8_scriptContinues_monotone [("sid", "CA1")] c8Call (.say "bye") [.say "bye"]).1,
   (c8_scriptContinues_monotone [("sid", "CA1")] c8Call (.say "bye") [.say "bye"]).2.1,
   (c8_scriptContinues_monotone [("sid", "CA1")] c8Hungup (.say "bye")
     [.say "bye"]).2.2 (by decide)⟩

/-- C9: every markup verb outside the supported surface
(say/play/pause/gather/dial/hangup/reject) raises a `TypeError` at the moment
of access on the public builder profile — the same error kind raised for a
forbidden attribute — and the internal profile differs from the public one
only in additionally permitting `redirect`. -/
theorem c9_unsupported_verbs_typeerror (v : Verb) (a : String)
    (hv : v ∉ supportedVerbs) (ha : a ∈ forbiddenAttributes) :
    isTypeError (proxyGetVerb forbiddenVerbs v) = true ∧
    isTypeError (proxyApplyAttrs forbiddenAttributes
      " attribute not allowed in <Gather>" [a]) = true ∧
    (∀ w : Verb, w ∈ forbiddenVerbsInternal ↔ w ∈ forbiddenVerbs ∧ w ≠ .redirect) := by
  refine ⟨?_, ?_, by decide⟩
  · revert hv
    revert v
    decide
  · simp [proxyApplyAttrs, ha, isTypeError]

/-- Witness for C9 at the `connect` verb and the `url` attribute. -/
theorem c9_unsupported_verbs_witness :
    (Verb.connect ∉ supportedVerbs) ∧ ("url" ∈ forbiddenAttributes) ∧
    isTypeError (proxyGetVerb forbiddenVerbs .connect) = true :=
  ⟨by decide, by decide,
    (c9_unsupported_verbs_typeerror .connect "url" (by decide) (by decide)).1⟩

/-- C10: when the options validate but the provider's call-creation request
fails, the promise returned by `Call.makeCall` rejects with exactly the
provider's error and the session registry is left unchanged. -/
theorem c10_provider_failure_rejects (serverUrl : String) (reg : Registry)
    (options : Options) (err : String)
    (hvalid : (validateOptions serverUrl options).isOk = true) :
    makeCall serverUrl reg options (.error err)
      = { outcome := .rejectedProvider err, reg := reg, requestIssued := true } := by
  unfold makeCall
  cases h : validateOptions serverUrl options with
  | error e => rw [h] at hvalid; simp [Except.isOk, Except.toBool] at hvalid
  | ok o => simp

/-- Witness for C10 at a harmless option set and a failing provider request. -/
theorem c10_provider_failure_witness :
    (validateOptions "https://example.com" c10Options).isOk = true ∧
    makeCall "https://example.com" [("CA0", c1Call)] c10Options (.error "boom")
      = { outcome := .rejectedProvider "boom", reg := [("CA0", c1Call)],
          requestIssued := true } :=
  ⟨by decide,
    c10_provider_failure_rejects "https://example.com" [("CA0", c1Call)] c10Options
      "boom" (by decide)⟩

end PVToolkit
